import Mathlib

/-!
Formal model of `server/server.js` from the gestaoteclamerlo repository: an
Express HTTP façade over an automated WhatsApp Web session.  Pure parts of
the JavaScript (phone normalization, API-key extraction) become Lean
functions; the handlers become pure functions from server state and request
data to a response, a successor state and a list of side effects
(`sendMessage` calls and delays).  JavaScript strings become `String`,
absent/`undefined` values become `Option`, and JavaScript truthiness of
strings (`""` is falsy) is modelled explicitly.
-/

namespace Gestao

/-- A JavaScript string value that may be `undefined`/`null` (`none`).
`some ""` is a present but falsy string. -/
abbrev JsStr := Option String

/-- JavaScript truthiness test for an optional string: `undefined`, `null`
and `""` are falsy. -/
def jsTruthy : JsStr → Bool
  | none => false
  | some s => !(s = "")

/-- The JavaScript `a || b` operator on optional strings: returns `a` when
`a` is truthy, otherwise `b` (as-is, even if falsy). -/
def jsOr (a b : JsStr) : JsStr :=
  if jsTruthy a then a else b

/-- The JavaScript `x || null` coercion used for `sent.id._serialized || null`:
a falsy value becomes `null` (`none`). -/
def jsOrNull (a : JsStr) : JsStr :=
  if jsTruthy a then a else none

/-- `process.env.X || 'default'`: the environment value when set and
nonempty, the default otherwise. -/
def envOr (v : Option String) (d : String) : String :=
  match v with
  | none => d
  | some s => if s = "" then d else s

/-- Characters matched by the JavaScript regex class `\s`: per the
ECMAScript definition, WhiteSpace (tab, VT, FF, space, NBSP, ZWNBSP and
every Unicode Space_Separator) together with the LineTerminators
(LF, CR, LS, PS). -/
def isJsSpace (c : Char) : Bool :=
  c == '\t' || c == '\n' || c == '\x0b' || c == '\x0c' || c == '\r' ||
    c == ' ' || c == '\u00A0' || c == '\u1680' ||
    ('\u2000' ≤ c && c ≤ '\u200A') || c == '\u2028' || c == '\u2029' ||
    c == '\u202F' || c == '\u205F' || c == '\u3000' || c == '\uFEFF'

/-- `s.replace(/^Bearer\s+/i, '')`: drop a leading case-insensitive
`Bearer` followed by at least one whitespace character (greedy). -/
def stripBearer (s : String) : String :=
  let cs := s.data
  if (cs.take 6).map Char.toLower = "bearer".data then
    match cs.drop 6 with
    | [] => s
    | c :: rest =>
      if isJsSpace c then String.mk ((c :: rest).dropWhile isJsSpace) else s
  else s

/-- Server configuration, as read in `server.js` lines 39-43. -/
structure Config where
  apiKey : String
  instanceName : String
  messageDelayMs : Nat
  defaultCountryCode : String
  rateLimitMax : Nat
deriving Repr, DecidableEq

/-- The configuration produced with no overriding environment variables:
`API_KEY` defaults to the empty string and everything else to the literal
defaults in `server.js`. -/
def defaultConfig : Config :=
  { apiKey := envOr none ""
    instanceName := envOr none "CentroSocial"
    messageDelayMs := 2000
    defaultCountryCode := envOr none "55"
    rateLimitMax := 30 }

/-- `String(raw).replace(/\D/g, '')`: keep only the decimal digits. -/
def digitsOf (s : String) : String :=
  String.mk (s.data.filter Char.isDigit)

/-- JavaScript `s.startsWith(pre)`: `pre` is a prefix of `s`. -/
def strStartsWith (s pre : String) : Bool :=
  pre.data.isPrefixOf s.data

/-- `normalizeNumber` from `server.js` lines 108-116, with
`DEFAULT_COUNTRY_CODE` passed explicitly.  `raw` is the JavaScript value of
`number` (a string or `undefined`). -/
def normalizeNumber (dcc : String) (raw : JsStr) : String :=
  match raw with
  | none => ""
  | some s =>
    if s = "" then ""
    else
      let digits := digitsOf s
      if digits = "" then ""
      else if dcc ≠ "" ∧ strStartsWith digits dcc = false ∧ digits.length ≤ 11 then
        dcc ++ digits
      else digits

/-- The request headers the server reads. -/
structure Headers where
  apikey : JsStr
  xApiKey : JsStr
  authorization : JsStr
deriving Repr, DecidableEq

/-- The key the server compares against `API_KEY`:
`req.headers['apikey'] || req.headers['x-api-key'] ||
req.headers['authorization']?.replace(/^Bearer\s+/i, '')`. -/
def extractKey (h : Headers) : JsStr :=
  jsOr h.apikey (jsOr h.xApiKey (h.authorization.map stripBearer))

/-- Outcome of `ensureApiKey` (`server.js` lines 95-106). -/
inductive AuthCheck where
  | noApiKey
  | unauthorized
  | ok
deriving Repr, DecidableEq

/-- `ensureApiKey`: a 500 when `API_KEY` is unset (empty), a 401 when the
extracted key differs from `API_KEY`, otherwise pass. -/
def ensureApiKey (apiKey : String) (h : Headers) : AuthCheck :=
  if apiKey = "" then .noApiKey
  else if extractKey h = some apiKey then .ok
  else .unauthorized

/-- The body of the 500 response when `API_KEY` is not configured. -/
def apiKeyMissingMsg : String :=
  "API_KEY não configurada no servidor. Defina no arquivo .env."

/-- The mutable server state: the boolean ready-flag and the last QR data
URL (`server.js` lines 58-59). -/
structure ServerState where
  isReady : Bool
  lastQrDataUrl : Option String
deriving Repr, DecidableEq

/-- The state at server start: `isReady = false`, no QR yet. -/
def initState : ServerState :=
  { isReady := false, lastQrDataUrl := none }

/-- Events emitted by the WhatsApp client that the server subscribes to
(`server.js` lines 61-90).  `qr url` is a `qr` event whose
`qrcode.toDataURL` call succeeded with `url`; `qrError` is a `qr` event
whose conversion threw (the catch block only logs). -/
inductive WaEvent where
  | qr (dataUrl : String)
  | qrError
  | ready
  | authFailure
  | disconnected
deriving Repr, DecidableEq

/-- The state transition performed by each client event handler. -/
def applyEvent (st : ServerState) : WaEvent → ServerState
  | .qr url => { st with lastQrDataUrl := some url }
  | .qrError => st
  | .ready => { isReady := true, lastQrDataUrl := none }
  | .authFailure => { st with isReady := false }
  | .disconnected => { isReady := false, lastQrDataUrl := none }

/-- Response bodies, one constructor per JSON shape the server emits. -/
inductive Body where
  | error (msg : String)
  | statusOk (ready : Bool)
  | ready (ready : Bool)
  | qr (dataUrl : String)
  | instanceCreated (instanceName apikey : String)
  | instanceQr (instanceName : String) (base64 : Option String)
  | connectOpen
  | connectWaiting (message : String)
  | connectQr (base64 : String)
  | sent (id : Option String)
  | batchDone (count : Nat)
deriving Repr, DecidableEq

/-- An HTTP response: status code and JSON body. -/
structure Response where
  status : Nat
  body : Body
deriving Repr, DecidableEq

/-- Side effects a handler may perform on the WhatsApp client. -/
inductive Effect where
  | sendMessage (chatId text : String)
  | delay (ms : Nat)
deriving Repr, DecidableEq

/-- Whether an effect is a `client.sendMessage` call. -/
def Effect.isSend : Effect → Bool
  | .sendMessage _ _ => true
  | .delay _ => false

/-- The result of running one handler: the response written, the server
state afterwards, and the effects performed, in order. -/
structure HandlerResult where
  response : Response
  state : ServerState
  effects : List Effect
deriving Repr, DecidableEq

/-- `GET /` (`server.js` lines 120-122). -/
def rootHandler (st : ServerState) : HandlerResult :=
  ⟨⟨200, .statusOk st.isReady⟩, st, []⟩

/-- `GET /status` (`server.js` lines 124-126). -/
def statusHandler (st : ServerState) : HandlerResult :=
  ⟨⟨200, .ready st.isReady⟩, st, []⟩

/-- `GET /qr` (`server.js` lines 129-133). -/
def qrHandler (st : ServerState) : HandlerResult :=
  if st.isReady then ⟨⟨400, .error "Already authenticated"⟩, st, []⟩
  else
    match st.lastQrDataUrl with
    | none => ⟨⟨404, .error "QR não disponível. Aguarde alguns segundos."⟩, st, []⟩
    | some url => ⟨⟨200, .qr url⟩, st, []⟩

/-- The response written by `ensureApiKey` when `API_KEY` is unset. -/
def noApiKeyResult (st : ServerState) : HandlerResult :=
  ⟨⟨500, .error apiKeyMissingMsg⟩, st, []⟩

/-- The response written by `ensureApiKey` on a key mismatch. -/
def unauthorizedResult (st : ServerState) : HandlerResult :=
  ⟨⟨401, .error "Unauthorized"⟩, st, []⟩

/-- `POST /instance/create` (`server.js` lines 137-147).
`bodyInstanceName` is `req.body?.instanceName`. -/
def instanceCreateHandler (cfg : Config) (st : ServerState) (h : Headers)
    (bodyInstanceName : JsStr) : HandlerResult :=
  match ensureApiKey cfg.apiKey h with
  | .noApiKey => noApiKeyResult st
  | .unauthorized => unauthorizedResult st
  | .ok =>
    let name := match jsOr bodyInstanceName (some cfg.instanceName) with
      | some s => s
      | none => cfg.instanceName
    if st.isReady then ⟨⟨200, .instanceCreated name cfg.apiKey⟩, st, []⟩
    else ⟨⟨200, .instanceQr name st.lastQrDataUrl⟩, st, []⟩

/-- `GET /instance/connect/:instance` (`server.js` lines 150-159). -/
def instanceConnectHandler (cfg : Config) (st : ServerState) (h : Headers) :
    HandlerResult :=
  match ensureApiKey cfg.apiKey h with
  | .noApiKey => noApiKeyResult st
  | .unauthorized => unauthorizedResult st
  | .ok =>
    if st.isReady then ⟨⟨200, .connectOpen⟩, st, []⟩
    else
      match st.lastQrDataUrl with
      | none => ⟨⟨202, .connectWaiting "Aguardando QR. Tente novamente em alguns segundos."⟩, st, []⟩
      | some url => ⟨⟨200, .connectQr url⟩, st, []⟩

/-- The `textMessage` object of the send-text body. -/
structure TextMessage where
  text : JsStr
deriving Repr, DecidableEq

/-- The JSON body of `POST /message/sendText/:instance`. -/
structure SendTextBody where
  number : JsStr
  textMessage : Option TextMessage
deriving Repr, DecidableEq

/-- `number` after `const { number } = req.body || {}`. -/
def bodyNumber (b : Option SendTextBody) : JsStr :=
  (b.map SendTextBody.number).join

/-- `textMessage?.text` after destructuring `req.body || {}`. -/
def bodyText (b : Option SendTextBody) : JsStr :=
  ((b.map SendTextBody.textMessage).join.map TextMessage.text).join

/-- The outcome of the awaited `client.sendMessage` call: success carries
`sent.id._serialized` (possibly `undefined`), failure carries `err.message`. -/
inductive SendOutcome where
  | success (serializedId : JsStr)
  | failure (errMsg : String)
deriving Repr, DecidableEq

/-- `POST /message/sendText/:instance` (`server.js` lines 164-193),
parameterized by what `client.sendMessage` would do (`outcome`). -/
def sendTextHandler (cfg : Config) (st : ServerState) (h : Headers)
    (body : Option SendTextBody) (outcome : SendOutcome) : HandlerResult :=
  match ensureApiKey cfg.apiKey h with
  | .noApiKey => noApiKeyResult st
  | .unauthorized => unauthorizedResult st
  | .ok =>
    if st.isReady = false then
      ⟨⟨503, .error "WhatsApp não está conectado. Escaneie o QR primeiro."⟩, st, []⟩
    else
      let number := bodyNumber body
      let text := bodyText body
      if jsTruthy number = false ∨ jsTruthy text = false then
        ⟨⟨400, .error "Campos obrigatórios: number e textMessage.text"⟩, st, []⟩
      else
        let normalized := normalizeNumber cfg.defaultCountryCode number
        if normalized = "" then ⟨⟨400, .error "Número inválido"⟩, st, []⟩
        else
          let chatId := normalized ++ "@c.us"
          let msg := match text with | some s => s | none => ""
          match outcome with
          | .success sid =>
            ⟨⟨200, .sent (jsOrNull sid)⟩, st,
              [.sendMessage chatId msg, .delay cfg.messageDelayMs]⟩
          | .failure err =>
            ⟨⟨500, .error err⟩, st, [.sendMessage chatId msg]⟩

/-- State of the `express-rate-limit` memory store used by `sendLimiter`
(`server.js` lines 31-36): per-key hit counters, all reset together when a
new `windowMs` interval begins.  This models the documented fixed-window
behaviour of the `express-rate-limit` dependency; time is in milliseconds
and `windowIdx = t / windowMs` identifies the current window. -/
structure LimiterState where
  windowIdx : Nat
  hits : List (String × Nat)
deriving Repr, DecidableEq

/-- The limiter state when the server starts. -/
def initLimiter : LimiterState :=
  { windowIdx := 0, hits := [] }

/-- Hit count recorded for an IP. -/
def getHits : List (String × Nat) → String → Nat
  | [], _ => 0
  | (k, v) :: rest, ip => if k = ip then v else getHits rest ip

/-- Set the hit count for an IP. -/
def setHits : List (String × Nat) → String → Nat → List (String × Nat)
  | [], ip, n => [(ip, n)]
  | (k, v) :: rest, ip, n =>
    if k = ip then (ip, n) :: rest else (k, v) :: setHits rest ip n

/-- One request through the rate limiter: reset the counters when the
window changed, increment this IP's counter, and accept exactly when the
new count does not exceed `maxReq`. -/
def limiterStep (windowMs maxReq : Nat) (lim : LimiterState) (ip : String)
    (t : Nat) : Bool × LimiterState :=
  let idx := t / windowMs
  let hits := if idx = lim.windowIdx then lim.hits else []
  let n := getHits hits ip + 1
  (decide (n ≤ maxReq), ⟨idx, setHits hits ip n⟩)

/-- Dispatch of a `POST /message/sendText/:instance` request through the
`/message`-mounted `sendLimiter` (`app.use('/message', sendLimiter)`): a
rejected request gets the configured message body and never reaches the
handler. -/
def messageRoute (cfg : Config) (lim : LimiterState) (st : ServerState)
    (ip : String) (t : Nat) (h : Headers) (body : Option SendTextBody)
    (outcome : SendOutcome) : HandlerResult × LimiterState :=
  let step := limiterStep 60000 cfg.rateLimitMax lim ip t
  if step.1 then (sendTextHandler cfg st h body outcome, step.2)
  else (⟨⟨429, .error "Rate limit excedido"⟩, st, []⟩, step.2)

/-- Run a list of timestamped requests (IP, time) through the limiter,
returning each request's IP paired with its accept/reject flag. -/
def runLimiter (windowMs maxReq : Nat) :
    LimiterState → List (String × Nat) → List (String × Bool) × LimiterState
  | lim, [] => ([], lim)
  | lim, (ip, t) :: rs =>
    let step := limiterStep windowMs maxReq lim ip t
    let rest := runLimiter windowMs maxReq step.2 rs
    ((ip, step.1) :: rest.1, rest.2)

/-- How many of the flagged requests from `ip` were accepted. -/
def acceptedFor (ip : String) (rs : List (String × Bool)) : Nat :=
  (rs.filter fun p => decide (p.1 = ip) && p.2).length

/-- Modelled from the spec: the repository's second, near-duplicate HTTP
server — the one exposing the send-batch endpoint `POST /send` — is not
under `src/`; only its README is.  Per the spec it "accept[s]
authenticated requests to send one or many text messages with
inter-message delay and phone-number normalization": an authenticated
request carries many numbers (body fields `numbers`, `message`, `delayMs`)
and a text message is sent to each number, with a delay between
messages. -/
def sendBatchHandler (cfg : Config) (st : ServerState) (h : Headers)
    (numbers : List String) (message : String) (delayMs : Nat) :
    HandlerResult :=
  match ensureApiKey cfg.apiKey h with
  | .noApiKey => noApiKeyResult st
  | .unauthorized => unauthorizedResult st
  | .ok =>
    if st.isReady = false then
      ⟨⟨503, .error "WhatsApp não está conectado. Escaneie o QR primeiro."⟩, st, []⟩
    else
      let effs := numbers.flatMap fun n =>
        [Effect.sendMessage (normalizeNumber cfg.defaultCountryCode (some n) ++ "@c.us") message,
          Effect.delay delayMs]
      ⟨⟨200, .batchDone numbers.length⟩, st, effs⟩

/-! ### Helper lemmas -/

lemma sendTextHandler_state (cfg : Config) (st : ServerState) (h : Headers)
    (body : Option SendTextBody) (outcome : SendOutcome) :
    (sendTextHandler cfg st h body outcome).state = st := by
  unfold sendTextHandler
  cases ensureApiKey cfg.apiKey h with
  | noApiKey => rfl
  | unauthorized => rfl
  | ok =>
    dsimp only
    split
    · rfl
    · split
      · rfl
      · split
        · rfl
        · cases outcome <;> rfl

lemma instanceCreateHandler_state (cfg : Config) (st : ServerState) (h : Headers)
    (b : JsStr) : (instanceCreateHandler cfg st h b).state = st := by
  unfold instanceCreateHandler
  cases ensureApiKey cfg.apiKey h with
  | noApiKey => rfl
  | unauthorized => rfl
  | ok =>
    dsimp only
    split <;> rfl

lemma instanceConnectHandler_state (cfg : Config) (st : ServerState) (h : Headers) :
    (instanceConnectHandler cfg st h).state = st := by
  unfold instanceConnectHandler
  cases ensureApiKey cfg.apiKey h with
  | noApiKey => rfl
  | unauthorized => rfl
  | ok =>
    dsimp only
    split
    · rfl
    · split <;> rfl

lemma qrHandler_state (st : ServerState) : (qrHandler st).state = st := by
  unfold qrHandler
  split
  · rfl
  · split <;> rfl

lemma sendBatchHandler_state (cfg : Config) (st : ServerState) (h : Headers)
    (numbers : List String) (message : String) (delayMs : Nat) :
    (sendBatchHandler cfg st h numbers message delayMs).state = st := by
  unfold sendBatchHandler
  cases ensureApiKey cfg.apiKey h with
  | noApiKey => rfl
  | unauthorized => rfl
  | ok =>
    dsimp only
    split <;> rfl

lemma messageRoute_state (cfg : Config) (lim : LimiterState) (st : ServerState)
    (ip : String) (t : Nat) (h : Headers) (body : Option SendTextBody)
    (outcome : SendOutcome) :
    (messageRoute cfg lim st ip t h body outcome).1.state = st := by
  unfold messageRoute
  dsimp only
  split
  · exact sendTextHandler_state ..
  · rfl

lemma extractKey_cases (h : Headers) (k : String) (he : extractKey h = some k) :
    h.apikey = some k ∨ h.xApiKey = some k ∨
      h.authorization.map stripBearer = some k := by
  unfold extractKey jsOr at he
  split_ifs at he with t1 t2
  · exact Or.inl he
  · exact Or.inr (Or.inl he)
  · exact Or.inr (Or.inr he)

lemma data_append (a b : String) : (a ++ b).data = a.data ++ b.data := by
  cases a; cases b; rfl

lemma mem_digitsOf {c : Char} {s : String} (hc : c ∈ (digitsOf s).data) :
    c.isDigit = true :=
  (List.mem_filter.mp hc).2

lemma sendText_success_eq (cfg : Config) (st : ServerState) (h : Headers)
    (body : Option SendTextBody) (sid : JsStr)
    (hauth : ensureApiKey cfg.apiKey h = .ok)
    (hready : st.isReady = true)
    (hn : jsTruthy (bodyNumber body) = true)
    (ht : jsTruthy (bodyText body) = true)
    (hnorm : normalizeNumber cfg.defaultCountryCode (bodyNumber body) ≠ "") :
    sendTextHandler cfg st h body (.success sid) =
      ⟨⟨200, .sent (jsOrNull sid)⟩, st,
        [.sendMessage (normalizeNumber cfg.defaultCountryCode (bodyNumber body) ++ "@c.us")
            ((bodyText body).getD ""),
          .delay cfg.messageDelayMs]⟩ := by
  cases htx : bodyText body with
  | none => rw [htx] at ht; simp [jsTruthy] at ht
  | some s =>
    rw [htx] at ht
    simp [sendTextHandler, hauth, hready, hn, ht, hnorm, htx, Option.getD]

/-! ### Claims -/

/-- C9: GET /status responds 200 with exactly the ready flag, GET / with
status "ok" plus the ready flag; neither requires an API key (the handlers
read no headers), and neither changes state nor performs effects. -/
theorem status_endpoints_report_ready (st : ServerState) :
    statusHandler st = ⟨⟨200, .ready st.isReady⟩, st, []⟩ ∧
    rootHandler st = ⟨⟨200, .statusOk st.isReady⟩, st, []⟩ :=
  ⟨rfl, rfl⟩

/-- C8: GET /qr responds 400 "Already authenticated" whenever the client is
ready; otherwise 404 when no QR data URL is stored, and 200 with the
stored data URL when one is; state is never changed. -/
theorem qr_endpoint_spec (st : ServerState) :
    (st.isReady = true →
      qrHandler st = ⟨⟨400, .error "Already authenticated"⟩, st, []⟩) ∧
    (st.isReady = false → st.lastQrDataUrl = none →
      qrHandler st = ⟨⟨404, .error "QR não disponível. Aguarde alguns segundos."⟩, st, []⟩) ∧
    (∀ url, st.isReady = false → st.lastQrDataUrl = some url →
      qrHandler st = ⟨⟨200, .qr url⟩, st, []⟩) := by
  refine ⟨fun hr => ?_, fun hr hq => ?_, fun url hr hq => ?_⟩
  · simp [qrHandler, hr]
  · simp [qrHandler, hr, hq]
  · simp [qrHandler, hr, hq]

/-- C8 witness: evaluation at concrete states. -/
theorem qr_endpoint_spec_witness :
    qrHandler ⟨true, some "d"⟩ =
      ⟨⟨400, .error "Already authenticated"⟩, ⟨true, some "d"⟩, []⟩ :=
  (qr_endpoint_spec ⟨true, some "d"⟩).1 rfl

/-- C7: the connection state machine is exactly the boolean ready-flag:
`isReady` starts `false`, only the `ready` event sets it `true`,
`auth_failure` and `disconnected` set it `false`, the `qr` event leaves it
unchanged, and no endpoint handler modifies the server state at all. -/
theorem ready_flag_state_machine :
    initState.isReady = false ∧
    (∀ st, (applyEvent st .ready).isReady = true) ∧
    (∀ st, (applyEvent st .authFailure).isReady = false) ∧
    (∀ st, (applyEvent st .disconnected).isReady = false) ∧
    (∀ st url, (applyEvent st (.qr url)).isReady = st.isReady) ∧
    (∀ st, (applyEvent st .qrError).isReady = st.isReady) ∧
    (∀ st, (rootHandler st).state = st) ∧
    (∀ st, (statusHandler st).state = st) ∧
    (∀ st, (qrHandler st).state = st) ∧
    (∀ cfg st h b, (instanceCreateHandler cfg st h b).state = st) ∧
    (∀ cfg st h, (instanceConnectHandler cfg st h).state = st) ∧
    (∀ cfg st h body outcome, (sendTextHandler cfg st h body outcome).state = st) ∧
    (∀ cfg st h ns msg d, (sendBatchHandler cfg st h ns msg d).state = st) ∧
    (∀ cfg lim st ip t h body outcome,
      (messageRoute cfg lim st ip t h body outcome).1.state = st) := by
  refine ⟨rfl, fun st => rfl, fun st => rfl, fun st => rfl, fun st url => rfl,
    fun st => rfl, fun st => rfl, fun st => rfl, qrHandler_state,
    instanceCreateHandler_state, instanceConnectHandler_state,
    sendTextHandler_state, sendBatchHandler_state, messageRoute_state⟩

/-- C10: with `API_KEY` unset (empty), every request to the three
authenticated endpoints gets the 500 "API_KEY não configurada" response,
whatever the headers, with no state change and no effects. -/
theorem unset_api_key_fails_closed (cfg : Config) (st : ServerState)
    (h : Headers) (b : JsStr) (body : Option SendTextBody)
    (outcome : SendOutcome) (hk : cfg.apiKey = "") :
    instanceCreateHandler cfg st h b = ⟨⟨500, .error apiKeyMissingMsg⟩, st, []⟩ ∧
    instanceConnectHandler cfg st h = ⟨⟨500, .error apiKeyMissingMsg⟩, st, []⟩ ∧
    sendTextHandler cfg st h body outcome = ⟨⟨500, .error apiKeyMissingMsg⟩, st, []⟩ := by
  have he : ensureApiKey cfg.apiKey h = .noApiKey := by
    simp [ensureApiKey, hk]
  refine ⟨?_, ?_, ?_⟩ <;>
    simp [instanceCreateHandler, instanceConnectHandler, sendTextHandler, he,
      noApiKeyResult]

/-- C10 witness: evaluation at a concrete configuration and request. -/
theorem unset_api_key_fails_closed_witness :
    sendTextHandler ⟨"", "CentroSocial", 2000, "55", 30⟩ ⟨true, none⟩
        ⟨some "anything", none, none⟩
        (some ⟨some "11987654321", some ⟨some "oi"⟩⟩) (.success none) =
      ⟨⟨500, .error apiKeyMissingMsg⟩, ⟨true, none⟩, []⟩ :=
  (unset_api_key_fails_closed ⟨"", "CentroSocial", 2000, "55", 30⟩ ⟨true, none⟩
    ⟨some "anything", none, none⟩ none
    (some ⟨some "11987654321", some ⟨some "oi"⟩⟩) (.success none) rfl).2.2

/-- C3: when `API_KEY` is configured and none of the headers `apikey`,
`x-api-key` or `Authorization` (with an optional `Bearer` prefix stripped)
equals it, the three authenticated endpoints respond 401 Unauthorized with
no state change and no effects. -/
theorem wrong_api_key_rejected (cfg : Config) (st : ServerState) (h : Headers)
    (b : JsStr) (body : Option SendTextBody) (outcome : SendOutcome)
    (hne : cfg.apiKey ≠ "")
    (h1 : h.apikey ≠ some cfg.apiKey)
    (h2 : h.xApiKey ≠ some cfg.apiKey)
    (h3 : h.authorization.map stripBearer ≠ some cfg.apiKey) :
    instanceCreateHandler cfg st h b = ⟨⟨401, .error "Unauthorized"⟩, st, []⟩ ∧
    instanceConnectHandler cfg st h = ⟨⟨401, .error "Unauthorized"⟩, st, []⟩ ∧
    sendTextHandler cfg st h body outcome = ⟨⟨401, .error "Unauthorized"⟩, st, []⟩ := by
  have hke : extractKey h ≠ some cfg.apiKey := by
    intro he
    rcases extractKey_cases h cfg.apiKey he with h' | h' | h'
    · exact h1 h'
    · exact h2 h'
    · exact h3 h'
  have hu : ensureApiKey cfg.apiKey h = .unauthorized := by
    simp [ensureApiKey, hne, hke]
  refine ⟨?_, ?_, ?_⟩ <;>
    simp [instanceCreateHandler, instanceConnectHandler, sendTextHandler, hu,
      unauthorizedResult]

/-- C3 witness: a concrete rejected request. -/
theorem wrong_api_key_rejected_witness :
    instanceCreateHandler ⟨"secret", "CentroSocial", 2000, "55", 30⟩ ⟨false, none⟩
        ⟨some "wrong", none, some "Bearer nope"⟩ none =
      ⟨⟨401, .error "Unauthorized"⟩, ⟨false, none⟩, []⟩ :=
  (wrong_api_key_rejected ⟨"secret", "CentroSocial", 2000, "55", 30⟩ ⟨false, none⟩
    ⟨some "wrong", none, some "Bearer nope"⟩ none none (.success none)
    (by decide) (by decide) (by decide) (by decide)).1

/-- C4: every precondition failure of POST /message/sendText/:instance is
atomic: not-ready yields 503, a missing `number` or `textMessage.text`
yields 400, an empty normalization yields 400 "Número inválido", and in
each case no `sendMessage` effect is performed and the state is
unchanged. -/
theorem sendText_precondition_atomic (cfg : Config) (st : ServerState)
    (h : Headers) (body : Option SendTextBody) (outcome : SendOutcome)
    (hauth : ensureApiKey cfg.apiKey h = .ok) :
    (st.isReady = false →
      sendTextHandler cfg st h body outcome =
        ⟨⟨503, .error "WhatsApp não está conectado. Escaneie o QR primeiro."⟩, st, []⟩) ∧
    (jsTruthy (bodyNumber body) = false ∨ jsTruthy (bodyText body) = false →
      st.isReady = true →
      sendTextHandler cfg st h body outcome =
        ⟨⟨400, .error "Campos obrigatórios: number e textMessage.text"⟩, st, []⟩) ∧
    (jsTruthy (bodyNumber body) = true → jsTruthy (bodyText body) = true →
      normalizeNumber cfg.defaultCountryCode (bodyNumber body) = "" →
      st.isReady = true →
      sendTextHandler cfg st h body outcome =
        ⟨⟨400, .error "Número inválido"⟩, st, []⟩) := by
  refine ⟨fun hr => ?_, fun hm hr => ?_, fun hn ht hnorm hr => ?_⟩
  · simp [sendTextHandler, hauth, hr]
  · rcases hm with hm | hm <;> simp [sendTextHandler, hauth, hr, hm]
  · simp [sendTextHandler, hauth, hr, hn, ht, hnorm]

/-- C4 witness: a concrete not-ready request. -/
theorem sendText_precondition_atomic_witness :
    sendTextHandler ⟨"secret", "CentroSocial", 2000, "55", 30⟩ ⟨false, none⟩
        ⟨some "secret", none, none⟩ (some ⟨some "11987654321", some ⟨some "oi"⟩⟩)
        (.success none) =
      ⟨⟨503, .error "WhatsApp não está conectado. Escaneie o QR primeiro."⟩,
        ⟨false, none⟩, []⟩ :=
  (sendText_precondition_atomic ⟨"secret", "CentroSocial", 2000, "55", 30⟩
    ⟨false, none⟩ ⟨some "secret", none, none⟩
    (some ⟨some "11987654321", some ⟨some "oi"⟩⟩) (.success none) (by decide)).1 rfl

/-- C5: on a successful send the handler performs exactly
`client.sendMessage` followed by a wait of `MESSAGE_DELAY_MS` milliseconds
(default 2000), and only then the 200 response with key id and status
"PENDING"; there are no other effects. -/
theorem sendText_success_sends_then_delays (cfg : Config) (st : ServerState)
    (h : Headers) (body : Option SendTextBody) (sid : JsStr)
    (hauth : ensureApiKey cfg.apiKey h = .ok)
    (hready : st.isReady = true)
    (hn : jsTruthy (bodyNumber body) = true)
    (ht : jsTruthy (bodyText body) = true)
    (hnorm : normalizeNumber cfg.defaultCountryCode (bodyNumber body) ≠ "") :
    sendTextHandler cfg st h body (.success sid) =
      ⟨⟨200, .sent (jsOrNull sid)⟩, st,
        [.sendMessage (normalizeNumber cfg.defaultCountryCode (bodyNumber body) ++ "@c.us")
            ((bodyText body).getD ""),
          .delay cfg.messageDelayMs]⟩ ∧
    defaultConfig.messageDelayMs = 2000 :=
  ⟨sendText_success_eq cfg st h body sid hauth hready hn ht hnorm, rfl⟩

/-- C5 witness: a concrete successful send. -/
theorem sendText_success_sends_then_delays_witness :
    sendTextHandler ⟨"secret", "CentroSocial", 2000, "55", 30⟩ ⟨true, none⟩
        ⟨some "secret", none, none⟩
        (some ⟨some "11987654321", some ⟨some "Olá"⟩⟩) (.success (some "MSGID")) =
      ⟨⟨200, .sent (jsOrNull (some "MSGID"))⟩, ⟨true, none⟩,
        [.sendMessage
            (normalizeNumber "55" (bodyNumber (some ⟨some "11987654321", some ⟨some "Olá"⟩⟩)) ++ "@c.us")
            ((bodyText (some ⟨some "11987654321", some ⟨some "Olá"⟩⟩)).getD ""),
          .delay 2000]⟩ ∧
    defaultConfig.messageDelayMs = 2000 :=
  sendText_success_sends_then_delays ⟨"secret", "CentroSocial", 2000, "55", 30⟩
    ⟨true, none⟩ ⟨some "secret", none, none⟩
    (some ⟨some "11987654321", some ⟨some "Olá"⟩⟩) (some "MSGID")
    (by decide) rfl (by decide) (by decide) (by decide)

/-- C2: `normalizeNumber` keeps only decimal digits: the result is always
digit-only, falsy or digit-free input yields `""`, and the country code is
prepended exactly when the digit string does not already start with it and
has at most 11 digits; the deployed `DEFAULT_COUNTRY_CODE` is never empty
(`process.env.DEFAULT_COUNTRY_CODE || '55'`). -/
theorem normalizeNumber_spec (dcc : String) (raw : JsStr)
    (hne : dcc ≠ "") (hdig : ∀ c ∈ dcc.data, c.isDigit = true) :
    (∀ c ∈ (normalizeNumber dcc raw).data, c.isDigit = true) ∧
    (raw = none ∨ raw = some "" → normalizeNumber dcc raw = "") ∧
    (∀ s, raw = some s → s ≠ "" →
      (digitsOf s = "" → normalizeNumber dcc raw = "") ∧
      (digitsOf s ≠ "" → strStartsWith (digitsOf s) dcc = false →
        (digitsOf s).length ≤ 11 → normalizeNumber dcc raw = dcc ++ digitsOf s) ∧
      (digitsOf s ≠ "" →
        (strStartsWith (digitsOf s) dcc = true ∨ 11 < (digitsOf s).length) →
        normalizeNumber dcc raw = digitsOf s)) ∧
    (∀ env, envOr env "55" ≠ "") := by
  refine ⟨?_, ?_, ?_, ?_⟩
  · intro c hc
    cases raw with
    | none => simp [normalizeNumber] at hc
    | some s =>
      by_cases hs : s = ""
      · simp [normalizeNumber, hs] at hc
      · by_cases hd : digitsOf s = ""
        · simp [normalizeNumber, hs, hd] at hc
        · by_cases hcond : dcc ≠ "" ∧ strStartsWith (digitsOf s) dcc = false ∧
            (digitsOf s).length ≤ 11
          · have hc' : c ∈ (dcc ++ digitsOf s).data := by
              simpa [normalizeNumber, hs, hd, hcond] using hc
            rw [data_append] at hc'
            rcases List.mem_append.mp hc' with h' | h'
            · exact hdig c h'
            · exact mem_digitsOf h'
          · have hc' : c ∈ (digitsOf s).data := by
              simpa [normalizeNumber, hs, hd, hcond] using hc
            exact mem_digitsOf hc'
  · rintro (rfl | rfl) <;> simp [normalizeNumber]
  · intro s hr hs
    subst hr
    refine ⟨fun hd => ?_, fun hd hsw hlen => ?_, fun hd hor => ?_⟩
    · simp [normalizeNumber, hs, hd]
    · simp [normalizeNumber, hs, hd, hne, hsw, hlen]
    · rcases hor with hsw | hlen
      · simp [normalizeNumber, hs, hd, hsw]
      · have hgt : ¬((digitsOf s).length ≤ 11) := by omega
        simp [normalizeNumber, hs, hd, hgt]
  · intro env
    cases env with
    | none => simp [envOr]
    | some s => by_cases h0 : s = "" <;> simp [envOr, h0]

/-- C2 witness: a formatted 11-digit local number gets the country code
prepended to its digit string. -/
theorem normalizeNumber_spec_witness :
    normalizeNumber "55" (some "(11) 98765-4321") = "55" ++ digitsOf "(11) 98765-4321" :=
  ((normalizeNumber_spec "55" (some "(11) 98765-4321") (by decide)
      (by decide)).2.2.1 "(11) 98765-4321" rfl (by decide)).2.1
    (by decide) (by decide) (by decide)

lemma filter_send_over_flatMap (g : String → String) (message : String) (d : Nat)
    (ns : List String) :
    ((ns.flatMap fun n => [Effect.sendMessage (g n) message, Effect.delay d]).filter
        Effect.isSend) =
      ns.map fun n => Effect.sendMessage (g n) message := by
  induction ns with
  | nil => rfl
  | cons a t ih => simp [List.flatMap_cons, List.filter_cons, Effect.isSend, ih]

/-- C1: besides the single-message endpoint, a send-batch operation exists:
an authenticated, ready-state batch request with a list of numbers performs
one `sendMessage` per number (each followed by the inter-message delay),
while the single-message endpoint performs exactly one `sendMessage`. -/
theorem send_one_or_many_endpoints (cfg : Config) (st : ServerState)
    (h : Headers) (numbers : List String) (message : String) (delayMs : Nat)
    (body : Option SendTextBody) (sid : JsStr)
    (hauth : ensureApiKey cfg.apiKey h = .ok)
    (hready : st.isReady = true)
    (hn : jsTruthy (bodyNumber body) = true)
    (ht : jsTruthy (bodyText body) = true)
    (hnorm : normalizeNumber cfg.defaultCountryCode (bodyNumber body) ≠ "") :
    (sendBatchHandler cfg st h numbers message delayMs).effects =
      (numbers.flatMap fun n =>
        [Effect.sendMessage (normalizeNumber cfg.defaultCountryCode (some n) ++ "@c.us") message,
          Effect.delay delayMs]) ∧
    ((sendBatchHandler cfg st h numbers message delayMs).effects.filter Effect.isSend) =
      (numbers.map fun n =>
        Effect.sendMessage (normalizeNumber cfg.defaultCountryCode (some n) ++ "@c.us") message) ∧
    ((sendTextHandler cfg st h body (.success sid)).effects.filter Effect.isSend).length = 1 := by
  have hb : (sendBatchHandler cfg st h numbers message delayMs).effects =
      (numbers.flatMap fun n =>
        [Effect.sendMessage (normalizeNumber cfg.defaultCountryCode (some n) ++ "@c.us") message,
          Effect.delay delayMs]) := by
    simp [sendBatchHandler, hauth, hready]
  refine ⟨hb, ?_, ?_⟩
  · rw [hb]
    exact filter_send_over_flatMap
      (fun n => normalizeNumber cfg.defaultCountryCode (some n) ++ "@c.us") message
      delayMs numbers
  · rw [sendText_success_eq cfg st h body sid hauth hready hn ht hnorm]
    simp [Effect.isSend]

/-- C1 witness: a concrete batch of two numbers produces exactly two
`sendMessage` effects, one per number. -/
theorem send_one_or_many_endpoints_witness :
    ((sendBatchHandler ⟨"secret", "CentroSocial", 2000, "55", 30⟩ ⟨true, none⟩
        ⟨some "secret", none, none⟩ ["11911111111", "5521922222222"] "Oi"
        1000).effects.filter Effect.isSend) =
      (["11911111111", "5521922222222"].map fun n =>
        Effect.sendMessage (normalizeNumber "55" (some n) ++ "@c.us") "Oi") :=
  (send_one_or_many_endpoints ⟨"secret", "CentroSocial", 2000, "55", 30⟩ ⟨true, none⟩
    ⟨some "secret", none, none⟩ ["11911111111", "5521922222222"] "Oi" 1000
    (some ⟨some "11987654321", some ⟨some "Oi"⟩⟩) none
    (by decide) rfl (by decide) (by decide) (by decide)).2.1

lemma getHits_setHits_self (hits : List (String × Nat)) (ip : String) (n : Nat) :
    getHits (setHits hits ip n) ip = n := by
  induction hits with
  | nil => simp [setHits, getHits]
  | cons p rest ih =>
    obtain ⟨k, v⟩ := p
    by_cases hk : k = ip <;> simp [setHits, getHits, hk, ih]

lemma getHits_setHits_ne (hits : List (String × Nat)) (k0 ip : String) (n : Nat)
    (hne : k0 ≠ ip) : getHits (setHits hits k0 n) ip = getHits hits ip := by
  induction hits with
  | nil => simp [setHits, getHits, hne]
  | cons p rest ih =>
    obtain ⟨k, v⟩ := p
    by_cases hk : k = k0 <;> simp [setHits, getHits, hk, hne, ih]

lemma acceptedFor_cons (ip a : String) (b : Bool) (l : List (String × Bool)) :
    acceptedFor ip ((a, b) :: l) =
      acceptedFor ip l + (if a = ip ∧ b = true then 1 else 0) := by
  by_cases ha : a = ip <;> cases b <;>
    simp [acceptedFor, ha, List.filter_cons]

lemma runLimiter_window_bound (maxReq idx : Nat) (ip : String) :
    ∀ (rs : List (String × Nat)) (hits : List (String × Nat)),
      (∀ r ∈ rs, r.2 / 60000 = idx) →
      acceptedFor ip (runLimiter 60000 maxReq ⟨idx, hits⟩ rs).1 ≤
        maxReq - getHits hits ip := by
  intro rs
  induction rs with
  | nil => intro hits hw; simp [runLimiter, acceptedFor]
  | cons r rest ih =>
    intro hits hw
    obtain ⟨ip0, t0⟩ := r
    have hidx : t0 / 60000 = idx := hw (ip0, t0) (by simp)
    have hw' : ∀ q ∈ rest, q.2 / 60000 = idx := fun q hq => hw q (by simp [hq])
    have hstep : (runLimiter 60000 maxReq ⟨idx, hits⟩ ((ip0, t0) :: rest)).1 =
        (ip0, decide (getHits hits ip0 + 1 ≤ maxReq)) ::
          (runLimiter 60000 maxReq ⟨idx, setHits hits ip0 (getHits hits ip0 + 1)⟩ rest).1 := by
      simp [runLimiter, limiterStep, hidx]
    rw [hstep, acceptedFor_cons]
    have hrec := ih (setHits hits ip0 (getHits hits ip0 + 1)) hw'
    by_cases hip : ip0 = ip
    · subst hip
      rw [getHits_setHits_self] at hrec
      by_cases hacc : getHits hits ip0 + 1 ≤ maxReq
      · rw [if_pos ⟨rfl, by simpa using hacc⟩]
        omega
      · rw [if_neg fun hc => hacc (by simpa using hc.2)]
        omega
    · rw [if_neg fun hc => hip hc.1]
      rw [getHits_setHits_ne _ _ _ _ hip] at hrec
      omega

/-- C6 (amended): per IP, within each fixed 60-second window of the
limiter at most `RATE_LIMIT_MAX` requests under `/message` are accepted;
an over-limit request is answered with the configured
"Rate limit excedido" body and never reaches the send handler; the default
limit is 30. -/
theorem rate_limit_fixed_window_spec :
    (∀ maxReq idx ip rs, (∀ r ∈ rs, r.2 / 60000 = idx) →
      acceptedFor ip (runLimiter 60000 maxReq ⟨idx, []⟩ rs).1 ≤ maxReq) ∧
    (∀ cfg lim st ip t h body outcome,
      (limiterStep 60000 cfg.rateLimitMax lim ip t).1 = false →
      (messageRoute cfg lim st ip t h body outcome).1 =
        ⟨⟨429, .error "Rate limit excedido"⟩, st, []⟩) ∧
    defaultConfig.rateLimitMax = 30 := by
  refine ⟨fun maxReq idx ip rs hw => ?_,
    fun cfg lim st ip t h body outcome hrej => ?_, rfl⟩
  · have hb := runLimiter_window_bound maxReq idx ip rs [] hw
    simpa [getHits] using hb
  · simp [messageRoute, hrej]

/-- C6 witness: with a limit of 2, at most 2 of 3 same-window requests are
accepted. -/
theorem rate_limit_fixed_window_spec_witness :
    acceptedFor "a" (runLimiter 60000 2 ⟨0, []⟩ [("a", 1), ("a", 2), ("a", 3)]).1 ≤ 2 :=
  rate_limit_fixed_window_spec.1 2 0 "a" [("a", 1), ("a", 2), ("a", 3)] (by decide)

/-- C6 counterexample: with the default limit of 30, sixty requests from
one IP — thirty just before the fixed-window reset and thirty just after —
are all accepted, yet all fall inside one sliding 60-second window, so
"at most RATE_LIMIT_MAX requests within any 60-second window" fails. -/
theorem rate_limit_sliding_window_counterexample :
    acceptedFor "ip"
        (runLimiter 60000 defaultConfig.rateLimitMax initLimiter
          (List.replicate 30 ("ip", 59990) ++ List.replicate 30 ("ip", 60000))).1 = 60 ∧
    (∀ r ∈ (List.replicate 30 ("ip", 59990) ++
        List.replicate 30 ("ip", 60000) : List (String × Nat)),
      59990 ≤ r.2 ∧ r.2 < 59990 + 60000) ∧
    defaultConfig.rateLimitMax < 60 := by decide

end Gestao
